import Mathlib

/-!
Verification of the RSOCKS5 SOCKS5 proxy core against its specification.

The Rust sources under `src/` are shallowly embedded below:

* `src/constants.rs` — protocol constants, embedded verbatim as `Nat` values.
* `src/error.rs`     — `Socks5Error`, with the wrapped payloads kept as strings
  (the `io::Error` payload of `IoError` is abstracted to a message string).
* `src/protocol.rs`  — `TargetAddr`, `handshake`, `process_command`,
  `send_reply`, `send_success_reply`.  A client connection is embedded as a
  `ByteStream`: the list of bytes still to be read from the client plus the
  list of bytes written to it so far; `read_exact` / `write_all` model the
  tokio operations (writes are modelled as always succeeding, reads fail with
  an I/O error on end of stream).  Rust's `String::from_utf8` validity check
  is embedded as the executable `utf8Valid` (the RFC 3629 byte-level
  acceptance used by Rust's standard library); the display text of a
  `FromUtf8Error` is abstracted to a fixed message.
* `src/connection.rs` — `connect_to_target`, taking the outcome of the
  outbound `TcpStream::connect` as an explicit parameter of type
  `Except IoErrorKind Unit` (the network itself is outside the program).
* `src/relay.rs`     — the two copy loops and `tokio::try_join!`.  Each copy
  loop is a `CopyLoop`: the number of polls it needs before completing plus
  the outcome of the underlying `io::copy`.  `try_join2` gives the
  deterministic round-based polling semantics of `tokio::try_join!` over two
  branches: in every round branch one is polled before branch two, the first
  `Err` poll result is returned at once, and a still-pending branch is dropped
  at that point; the outcome records whether each branch reached its own
  natural termination.
* `src/server.rs`    — `handle_client` as the sequential composition of the
  four stages (the outbound connect outcome and the two copy-loop behaviours
  are oracle parameters), and the accept loop of `Server::run` as `run` over a
  finite trace of accept events.  Note that `handle_client` in the source
  calls a three-argument `handshake(stream, username, password)`, while the
  only `handshake` defined in the crate (src/protocol.rs) takes just the
  stream and ignores any configured credentials; the embedding uses the
  `handshake` that exists.
-/

namespace RSocks5

/-! ## Constants (src/constants.rs) -/

def SOCKS_VERSION : Nat := 0x05

namespace auth

def NO_AUTH : Nat := 0x00

def GSSAPI : Nat := 0x01

def USER_PASS : Nat := 0x02

def NO_ACCEPTABLE_METHODS : Nat := 0xFF

end auth

namespace cmd

def CONNECT : Nat := 0x01

def BIND : Nat := 0x02

def UDP_ASSOCIATE : Nat := 0x03

end cmd

namespace atyp

def IPV4 : Nat := 0x01

def DOMAIN : Nat := 0x03

def IPV6 : Nat := 0x04

end atyp

namespace reply

def SUCCEEDED : Nat := 0x00

def GENERAL_FAILURE : Nat := 0x01

def NOT_ALLOWED : Nat := 0x02

def NETWORK_UNREACHABLE : Nat := 0x03

def HOST_UNREACHABLE : Nat := 0x04

def CONNECTION_REFUSED : Nat := 0x05

def TTL_EXPIRED : Nat := 0x06

def COMMAND_NOT_SUPPORTED : Nat := 0x07

def ADDRESS_TYPE_NOT_SUPPORTED : Nat := 0x08

end reply

def RESERVED : Nat := 0x00

def DEFAULT_PORT : Nat := 1080

/-! ## Errors (src/error.rs) -/

/-- `Socks5Error` from src/error.rs; every variant's payload is kept as a
string (for `IoError` the wrapped `io::Error` is abstracted to a message). -/
inductive Socks5Error where
  | HandshakeError (msg : String)
  | CommandError (msg : String)
  | AddressError (msg : String)
  | ConnectionError (msg : String)
  | RelayError (msg : String)
  | IoError (msg : String)
deriving DecidableEq, Repr

/-! ## The client byte stream -/

/-- The client `TcpStream` as seen by the proxy: the bytes still to be read
from the client and the bytes written to it so far. -/
structure ByteStream where
  input : List Nat
  written : List Nat
deriving DecidableEq, Repr

/-- Take the first `n` bytes of a list, returning them and the remainder, or
`none` when fewer than `n` bytes remain. -/
def readBytesAux : Nat → List Nat → Option (List Nat × List Nat)
  | 0, input => some ([], input)
  | _ + 1, [] => none
  | n + 1, b :: rest =>
    match readBytesAux n rest with
    | some (bs, rem) => some (b :: bs, rem)
    | none => none

/-- `stream.read_exact` into a buffer of `n` bytes; reaching end of stream
surfaces as an I/O error, as in tokio. -/
def read_exact (n : Nat) (s : ByteStream) : Except Socks5Error (List Nat × ByteStream) :=
  match readBytesAux n s.input with
  | some (bs, rem) => .ok (bs, { s with input := rem })
  | none => .error (.IoError "early eof")

/-- `stream.write_all`; writes are modelled as always succeeding. -/
def write_all (bs : List Nat) (s : ByteStream) : ByteStream :=
  { s with written := s.written ++ bs }

/-! ## UTF-8 validity (Rust `String::from_utf8`) -/

/-- A UTF-8 continuation byte. -/
def utf8Cont (c : Nat) : Bool :=
  0x80 ≤ c && c ≤ 0xBF

/-- Byte-level UTF-8 acceptance as performed by Rust's `String::from_utf8`
(RFC 3629: shortest forms only, surrogates excluded, max U+10FFFF). -/
def utf8Valid : List Nat → Bool
  | [] => true
  | b :: rest =>
    if b ≤ 0x7F then
      utf8Valid rest
    else if 0xC2 ≤ b && b ≤ 0xDF then
      match rest with
      | c1 :: r => utf8Cont c1 && utf8Valid r
      | [] => false
    else if b = 0xE0 then
      match rest with
      | c1 :: c2 :: r => (0xA0 ≤ c1 && c1 ≤ 0xBF) && utf8Cont c2 && utf8Valid r
      | _ => false
    else if (0xE1 ≤ b && b ≤ 0xEC) || b = 0xEE || b = 0xEF then
      match rest with
      | c1 :: c2 :: r => utf8Cont c1 && utf8Cont c2 && utf8Valid r
      | _ => false
    else if b = 0xED then
      match rest with
      | c1 :: c2 :: r => (0x80 ≤ c1 && c1 ≤ 0x9F) && utf8Cont c2 && utf8Valid r
      | _ => false
    else if b = 0xF0 then
      match rest with
      | c1 :: c2 :: c3 :: r =>
        (0x90 ≤ c1 && c1 ≤ 0xBF) && utf8Cont c2 && utf8Cont c3 && utf8Valid r
      | _ => false
    else if 0xF1 ≤ b && b ≤ 0xF3 then
      match rest with
      | c1 :: c2 :: c3 :: r => utf8Cont c1 && utf8Cont c2 && utf8Cont c3 && utf8Valid r
      | _ => false
    else if b = 0xF4 then
      match rest with
      | c1 :: c2 :: c3 :: r =>
        (0x80 ≤ c1 && c1 ≤ 0x8F) && utf8Cont c2 && utf8Cont c3 && utf8Valid r
      | _ => false
    else
      false

/-! ## Protocol (src/protocol.rs) -/

/-- `TargetAddr`; the domain variant keeps the raw (UTF-8 valid) bytes of the
domain string. -/
inductive TargetAddr where
  | Ipv4 (a b c d : Nat) (port : Nat)
  | Domain (bytes : List Nat) (port : Nat)
deriving DecidableEq, Repr

/-- The ten reply bytes assembled by `send_reply` in src/protocol.rs:
`VER, REP, RSV, ATYP, BND.ADDR (0.0.0.0), BND.PORT (0)`. -/
def reply_bytes (reply_code : Nat) : List Nat :=
  [SOCKS_VERSION, reply_code, RESERVED, atyp.IPV4, 0, 0, 0, 0, 0, 0]

/-- `send_reply` from src/protocol.rs (the write is modelled as succeeding,
so only the stream is returned). -/
def send_reply (s : ByteStream) (reply_code : Nat) : ByteStream :=
  write_all (reply_bytes reply_code) s

/-- `send_success_reply` from src/protocol.rs. -/
def send_success_reply (s : ByteStream) : ByteStream :=
  send_reply s reply.SUCCEEDED

/-- `handshake` from src/protocol.rs lines 43-74.  It takes only the client
stream: the function ignores any configured credentials and offers no
username/password path. -/
def handshake (s : ByteStream) : Except Socks5Error Unit × ByteStream :=
  match read_exact 2 s with
  | .error e => (.error e, s)
  | .ok (buf, s1) =>
    let ver := buf.getD 0 0
    let nmethods := buf.getD 1 0
    if ver ≠ SOCKS_VERSION then
      (.error (.HandshakeError ("Unsupported SOCKS version: " ++ toString ver)), s1)
    else
      match read_exact nmethods s1 with
      | .error e => (.error e, s1)
      | .ok (methods, s2) =>
        if methods.contains auth.NO_AUTH then
          (.ok (), write_all [SOCKS_VERSION, auth.NO_AUTH] s2)
        else
          (.error (.HandshakeError "No acceptable authentication methods"),
            write_all [SOCKS_VERSION, auth.NO_ACCEPTABLE_METHODS] s2)

/-- `process_command` from src/protocol.rs lines 81-164.  The byte at index 2
of the request header (RSV) is read but never inspected, exactly as in the
source (`// let rsv = request_header[2];` is commented out there). -/
def process_command (s : ByteStream) : Except Socks5Error TargetAddr × ByteStream :=
  match read_exact 4 s with
  | .error e => (.error e, s)
  | .ok (request_header, s1) =>
    let ver := request_header.getD 0 0
    let command := request_header.getD 1 0
    let address_type := request_header.getD 3 0
    if ver ≠ SOCKS_VERSION then
      (.error (.CommandError ("Unsupported SOCKS version in request: " ++ toString ver)),
        send_reply s1 reply.GENERAL_FAILURE)
    else if command ≠ cmd.CONNECT then
      (.error (.CommandError ("Unsupported command: " ++ toString command)),
        send_reply s1 reply.COMMAND_NOT_SUPPORTED)
    else if address_type = atyp.IPV4 then
      match read_exact 4 s1 with
      | .error e => (.error e, s1)
      | .ok (ipv4_bytes, s2) =>
        match read_exact 2 s2 with
        | .error e => (.error e, s2)
        | .ok (port_bytes, s3) =>
          let port := port_bytes.getD 0 0 * 256 + port_bytes.getD 1 0
          (.ok (TargetAddr.Ipv4 (ipv4_bytes.getD 0 0) (ipv4_bytes.getD 1 0)
            (ipv4_bytes.getD 2 0) (ipv4_bytes.getD 3 0) port), s3)
    else if address_type = atyp.DOMAIN then
      match read_exact 1 s1 with
      | .error e => (.error e, s1)
      | .ok (len_buf, s2) =>
        let domain_len := len_buf.getD 0 0
        match read_exact domain_len s2 with
        | .error e => (.error e, s2)
        | .ok (domain_bytes, s3) =>
          if utf8Valid domain_bytes then
            match read_exact 2 s3 with
            | .error e => (.error e, s3)
            | .ok (port_bytes, s4) =>
              let port := port_bytes.getD 0 0 * 256 + port_bytes.getD 1 0
              (.ok (TargetAddr.Domain domain_bytes port), s4)
          else
            (.error (.AddressError "Invalid domain name: invalid UTF-8"), s3)
    else if address_type = atyp.IPV6 then
      (.error (.AddressError "IPv6 address type not supported"),
        send_reply s1 reply.ADDRESS_TYPE_NOT_SUPPORTED)
    else
      (.error (.AddressError ("Unknown address type: " ++ toString address_type)),
        send_reply s1 reply.ADDRESS_TYPE_NOT_SUPPORTED)

/-! ## Target connector (src/connection.rs) -/

/-- The `std::io::ErrorKind` of a failed outbound connect; the kinds the
source matches by name, plus `Other` for every other kind (carrying the
kind's name). -/
inductive IoErrorKind where
  | ConnectionRefused
  | TimedOut
  | AddrNotAvailable
  | Other (name : String)
deriving DecidableEq, Repr

/-- The `match e.kind()` of src/connection.rs lines 41-46. -/
def error_reply_code (k : IoErrorKind) : Nat :=
  match k with
  | .ConnectionRefused => reply.CONNECTION_REFUSED
  | .TimedOut => reply.HOST_UNREACHABLE
  | .AddrNotAvailable => reply.NETWORK_UNREACHABLE
  | .Other _ => reply.HOST_UNREACHABLE

/-- `connect_to_target` from src/connection.rs lines 21-57, with the outcome
of `TcpStream::connect` supplied as the oracle `connect_result` (the target
network is outside the program). -/
def connect_to_target (connect_result : Except IoErrorKind Unit)
    (client_stream : ByteStream) : Except Socks5Error Unit × ByteStream :=
  match connect_result with
  | .ok _ => (.ok (), send_success_reply client_stream)
  | .error e =>
    (.error (.ConnectionError "Failed to connect to target"),
      send_reply client_stream (error_reply_code e))

/-! ## Relay engine (src/relay.rs) -/

/-- Decidable equality for `Except`, needed so concrete relay outcomes can be
settled by `decide`. -/
instance exceptDecEq {ε α : Type} [DecidableEq ε] [DecidableEq α] :
    DecidableEq (Except ε α) := fun a b =>
  match a, b with
  | .error e, .error f =>
    if h : e = f then .isTrue (by rw [h])
    else .isFalse (by intro hh; cases hh; exact h rfl)
  | .ok x, .ok y =>
    if h : x = y then .isTrue (by rw [h])
    else .isFalse (by intro hh; cases hh; exact h rfl)
  | .error _, .ok _ => .isFalse (by intro hh; cases hh)
  | .ok _, .error _ => .isFalse (by intro hh; cases hh)

/-- One copy loop of `Relay::start_relay`: `steps` is the number of polls the
loop needs before its `io::copy` completes, `copy_result` the outcome of that
`io::copy` (`Ok` with the byte count on a clean end of stream, `Err` with the
I/O error text). -/
structure CopyLoop where
  steps : Nat
  copy_result : Except String Nat
deriving DecidableEq, Repr

/-- The `client_to_target` async block of src/relay.rs lines 73-83: the
`io::copy` outcome with an error wrapped as `RelayError`. -/
def client_to_target (copy_result : Except String Nat) : Except Socks5Error Nat :=
  match copy_result with
  | .ok n => .ok n
  | .error e => .error (.RelayError ("Error copying data from client to target: " ++ e))

/-- The `target_to_client` async block of src/relay.rs lines 86-96. -/
def target_to_client (copy_result : Except String Nat) : Except Socks5Error Nat :=
  match copy_result with
  | .ok n => .ok n
  | .error e => .error (.RelayError ("Error copying data from target to client: " ++ e))

/-- Outcome of joining the two copy loops: the composed result, and whether
each loop reached its own natural termination point (as opposed to being
dropped while still pending). -/
structure JoinOutcome where
  result : Except Socks5Error (Nat × Nat)
  first_finished : Bool
  second_finished : Bool
deriving DecidableEq, Repr

/-- Deterministic round-based polling semantics of `tokio::try_join!` over
the two copy loops (src/relay.rs line 99): in round `r` the first branch is
polled, then the second; a branch is ready in round `steps`; the first `Err`
poll result is returned immediately, at which point a branch that is still
pending is dropped without reaching its natural termination. -/
def try_join2 (a b : CopyLoop) : JoinOutcome :=
  match client_to_target a.copy_result, target_to_client b.copy_result with
  | .ok na, .ok nb => ⟨.ok (na, nb), true, true⟩
  | .error ea, .ok _ => ⟨.error ea, true, decide (b.steps < a.steps)⟩
  | .ok _, .error eb => ⟨.error eb, decide (a.steps ≤ b.steps), true⟩
  | .error ea, .error eb =>
    if a.steps ≤ b.steps then ⟨.error ea, true, decide (b.steps < a.steps)⟩
    else ⟨.error eb, false, true⟩

/-- `Relay::start_relay` from src/relay.rs lines 59-110: the `match` on
`tokio::try_join!` mapping `Ok((from_client, from_target))` to `Ok(())` and
propagating the first error.  The two booleans report whether each copy loop
reached its own natural termination. -/
def start_relay (a b : CopyLoop) : Except Socks5Error Unit × Bool × Bool :=
  match try_join2 a b with
  | ⟨.ok _, fa, fb⟩ => (.ok (), fa, fb)
  | ⟨.error e, fa, fb⟩ => (.error e, fa, fb)

/-! ## Session dispatcher (src/server.rs) -/

/-- One iteration of the accept loop of `Server::run`: either a connection
was accepted (and its spawned session succeeded or failed), or the accept
itself failed with an error message. -/
inductive AcceptEvent where
  | accepted (session_ok : Bool)
  | accept_failed (msg : String)
deriving DecidableEq, Repr

/-- Observable dispatcher state: how many sessions were spawned and how many
accept errors were logged. -/
structure DispatchState where
  sessions_started : Nat
  accept_errors : Nat
deriving DecidableEq, Repr

/-- The body of the accept loop of src/server.rs lines 79-105: an accepted
connection spawns a session (whose own failure is only logged), a failed
accept is logged; in both cases the loop continues. -/
def server_step (st : DispatchState) (ev : AcceptEvent) : DispatchState :=
  match ev with
  | .accepted _ => { st with sessions_started := st.sessions_started + 1 }
  | .accept_failed _ => { st with accept_errors := st.accept_errors + 1 }

/-- `Server::run` from src/server.rs lines 71-106 over a finite trace of
accept events: a bind failure is returned as an error; after a successful
bind the loop folds `server_step` over the trace and is still accepting. -/
def run (bind_result : Except Socks5Error Unit) (events : List AcceptEvent) :
    Except Socks5Error DispatchState :=
  match bind_result with
  | .error e => .error e
  | .ok _ => .ok (events.foldl server_step ⟨0, 0⟩)

/-- `handle_client` from src/server.rs lines 126-158: handshake, then
command processing, then target connect, then relay, each `?`-propagating
its error with no further writes to the client.  The outbound connect
outcome and the behaviour of the two copy loops are oracle parameters.
(The source calls `handshake(&mut client_stream, username, password)`; the
only `handshake` in the crate takes just the stream and ignores
credentials, and is the one used here.) -/
def handle_client (client_stream : ByteStream)
    (connect_result : Except IoErrorKind Unit)
    (c2t t2c : CopyLoop) : Except Socks5Error Unit × ByteStream :=
  match handshake client_stream with
  | (.error e, s1) => (.error e, s1)
  | (.ok _, s1) =>
    match process_command s1 with
    | (.error e, s2) => (.error e, s2)
    | (.ok _, s2) =>
      match connect_to_target connect_result s2 with
      | (.error e, s3) => (.error e, s3)
      | (.ok _, s3) =>
        match (start_relay c2t t2c).1 with
        | .error e => (.error e, s3)
        | .ok _ => (.ok (), s3)

/-! ## Basic lemmas -/

/-- Reading exactly the length of a prefix returns that prefix and the rest. -/
theorem readBytesAux_append (xs rest : List Nat) :
    readBytesAux xs.length (xs ++ rest) = some (xs, rest) := by
  induction xs with
  | nil => rfl
  | cons b bs ih => simp [readBytesAux, ih]

/-- `read_exact` on a stream whose input starts with a prefix of the
requested length. -/
theorem read_exact_append (xs rest w : List Nat) :
    read_exact xs.length ⟨xs ++ rest, w⟩ = .ok (xs, ⟨rest, w⟩) := by
  simp [read_exact, readBytesAux_append]

/-! ## C7: the reply wire format -/

/-- C7: for every reply code, `send_reply` writes exactly the ten bytes
`VER=0x05, REP=code, RSV=0x00, ATYP=0x01, BND.ADDR=0.0.0.0, BND.PORT=0`
and reads nothing, so the proxy never advertises a real bound address. -/
theorem c7_reply_wire_format (code : Nat) (s : ByteStream) :
    send_reply s code =
      { input := s.input, written := s.written ++ [5, code, 0, 1, 0, 0, 0, 0, 0, 0] } := by
  rfl

/-! ## C4: error-kind-to-reply mapping of the target connector -/

/-- C4: for every failed outbound connect, `connect_to_target` writes the
reply whose code is given by the claim's mapping — connection-refused to
`CONNECTION_REFUSED` (0x05), timed-out to `HOST_UNREACHABLE` (0x04),
address-not-available to `NETWORK_UNREACHABLE` (0x03), every other error
kind to `HOST_UNREACHABLE` (0x04) — and returns a `ConnectionError`. -/
theorem c4_connect_failure_reply (k : IoErrorKind) (s : ByteStream) :
    (∃ msg, (connect_to_target (.error k) s).1 = .error (.ConnectionError msg)) ∧
    (connect_to_target (.error k) s).2 =
      write_all (reply_bytes (match k with
        | .ConnectionRefused => 0x05
        | .TimedOut => 0x04
        | .AddrNotAvailable => 0x03
        | .Other _ => 0x04)) s := by
  cases k <;> exact ⟨⟨_, rfl⟩, rfl⟩

/-! ## C6: non-CONNECT commands -/

/-- C6: for every request whose command byte is not CONNECT (0x01),
`process_command` writes the reply with code `COMMAND_NOT_SUPPORTED` (0x07)
and returns a `CommandError`; and the dispatcher, which only logs a
session's error, is still accepting after any trace of events. -/
theorem c6_command_not_supported (c rsv at_ : Nat) (rest w : List Nat)
    (hc : c ≠ cmd.CONNECT) :
    process_command ⟨5 :: c :: rsv :: at_ :: rest, w⟩ =
      (.error (.CommandError ("Unsupported command: " ++ toString c)),
        ⟨rest, w ++ [5, reply.COMMAND_NOT_SUPPORTED, 0, 1, 0, 0, 0, 0, 0, 0]⟩) ∧
    (∀ events : List AcceptEvent, ∃ st, run (.ok ()) events = .ok st) := by
  constructor
  · simp only [process_command, read_exact, readBytesAux]
    simp [hc, send_reply, write_all, reply_bytes, SOCKS_VERSION, cmd.CONNECT,
      reply.COMMAND_NOT_SUPPORTED, RESERVED, atyp.IPV4]
    exact fun h => absurd h (by simpa [cmd.CONNECT] using hc)
  · intro events
    exact ⟨events.foldl server_step ⟨0, 0⟩, rfl⟩

/-- Witness for C6 at the BIND command (0x02), the spec's own end-to-end
example. -/
theorem c6_command_not_supported_witness :
    (process_command ⟨5 :: 2 :: 0 :: 1 :: [], []⟩ =
      (.error (.CommandError ("Unsupported command: " ++ toString 2)),
        ⟨[], [] ++ [5, reply.COMMAND_NOT_SUPPORTED, 0, 1, 0, 0, 0, 0, 0, 0]⟩) ∧
    (∀ events : List AcceptEvent, ∃ st, run (.ok ()) events = .ok st)) :=
  c6_command_not_supported 2 0 1 [] [] (by decide)

/-! ## C8: the dispatcher and accept failures -/

/-- C8: after a successful bind the dispatcher processes any finite trace of
accept events (including accept failures, which only bump the error count)
and is still accepting; it returns an error exactly when — and only because —
the bind at startup failed. -/
theorem c8_dispatcher_accept_loop :
    (∀ events : List AcceptEvent,
      run (.ok ()) events = .ok (events.foldl server_step ⟨0, 0⟩)) ∧
    (∀ (st : DispatchState) (msg : String),
      server_step st (.accept_failed msg) =
        { st with accept_errors := st.accept_errors + 1 }) ∧
    (∀ (e : Socks5Error) (events : List AcceptEvent),
      run (.error e) events = .error e) := by
  refine ⟨fun events => rfl, fun st msg => rfl, fun e events => rfl⟩

/-! ## C9: silent close on a bad handshake version -/

/-- C9: for every handshake whose first byte is not 0x05, `handshake`
returns a `HandshakeError` having consumed exactly the two header bytes —
the advertised method bytes are left unread — and having written nothing. -/
theorem c9_bad_version_silent (v n : Nat) (rest w : List Nat)
    (hv : v ≠ SOCKS_VERSION) :
    handshake ⟨v :: n :: rest, w⟩ =
      (.error (.HandshakeError ("Unsupported SOCKS version: " ++ toString v)),
        ⟨rest, w⟩) := by
  simp only [handshake, read_exact, readBytesAux]
  simp [hv]

/-- Witness for C9 at version byte 0x04 with one (unread) method byte. -/
theorem c9_bad_version_silent_witness :
    handshake ⟨4 :: 1 :: [0], []⟩ =
      (.error (.HandshakeError ("Unsupported SOCKS version: " ++ toString 4)),
        ⟨[0], []⟩) :=
  c9_bad_version_silent 4 1 [0] [] (by decide)

/-! ## C10: the reserved byte is never inspected -/

/-- C10: `process_command` never inspects the RSV byte — two request streams
that differ only in the byte at index 2 of the header produce identical
results, identical writes and identical residual input. -/
theorem c10_rsv_byte_ignored (v c r1 r2 at_ : Nat) (rest w : List Nat) :
    process_command ⟨v :: c :: r1 :: at_ :: rest, w⟩ =
      process_command ⟨v :: c :: r2 :: at_ :: rest, w⟩ := by
  rfl

/-! ## C1 and C5: the negotiator versus the configured method policy

The `handshake` in src/protocol.rs takes no credentials at all, so the
selection cannot depend on whether an `AuthConfig` is configured: it selects
0x00 whenever the client offers it and rejects whenever the client does not,
in both configurations.  (src/server.rs line 133 calls a three-argument
`handshake(stream, username, password)` that does not exist in the crate,
and src/lib.rs advertises username/password authentication as a feature.) -/

/-- C1, evaluation at the failing input: with credentials configured and the
client offering exactly the username/password method (0x02), the negotiator
nonetheless rejects with 0xFF and a `HandshakeError` — `handshake` has no
credentials parameter, so the configured `AuthConfig` cannot influence it. -/
theorem c1_handshake_ignores_auth_config :
    handshake ⟨[5, 1, auth.USER_PASS], []⟩ =
      (.error (.HandshakeError "No acceptable authentication methods"),
        ⟨[], [5, 0xFF]⟩) := by
  rfl

/-- C5, evaluation at the failing input: with credentials configured and the
client offering only 0x00 (so no acceptable method according to the
configured mode), the negotiator does not reject — it selects 0x00 and
succeeds, because `handshake` ignores the configured credentials. -/
theorem c5_handshake_accepts_despite_credentials :
    handshake ⟨[5, 1, auth.NO_AUTH], []⟩ = (.ok (), ⟨[], [5, 0]⟩) := by
  rfl

/-! ## C3: composition of the two relay copy loops -/

/-- C3 counterexample: the client-to-target loop fails immediately while the
target-to-client loop still needs three more polls to reach its natural
completion (`Ok 5`); `start_relay` (via `tokio::try_join!`) returns the
first error at once and the second loop is dropped before reaching its own
natural termination point — refuting the claim that the relay engine waits
for it. -/
theorem c3_counterexample_no_wait :
    (start_relay ⟨0, .error "connection reset by peer"⟩ ⟨3, .ok 5⟩).2.2 = false ∧
    (start_relay ⟨0, .error "connection reset by peer"⟩ ⟨3, .ok 5⟩).1 =
      .error (.RelayError
        ("Error copying data from client to target: " ++ "connection reset by peer")) :=
  ⟨rfl, rfl⟩

/-- C3 amended: the composed result of the relay is an error exactly when
either loop errored (success otherwise), but on an error `try_join!` returns
immediately: a loop that fails while the other still needs further polls
causes the other to be dropped before its natural termination point. -/
theorem c3_first_error_returned_immediately (a b : CopyLoop) :
    ((∃ e, (start_relay a b).1 = .error e) ↔
      ((∃ e, a.copy_result = .error e) ∨ (∃ e, b.copy_result = .error e))) ∧
    (∀ (ea : String) (nb : Nat), a.copy_result = .error ea → b.copy_result = .ok nb →
      a.steps < b.steps → (start_relay a b).2.2 = false) ∧
    (∀ (eb : String) (na : Nat), a.copy_result = .ok na → b.copy_result = .error eb →
      b.steps < a.steps → (start_relay a b).2.1 = false) := by
  obtain ⟨sa, ra⟩ := a
  obtain ⟨sb, rb⟩ := b
  refine ⟨?_, ?_, ?_⟩
  · cases ra with
    | ok na =>
      cases rb <;> simp [start_relay, try_join2, client_to_target, target_to_client]
    | error ea =>
      cases rb with
      | ok nb => simp [start_relay, try_join2, client_to_target, target_to_client]
      | error eb =>
        rcases le_or_lt sa sb with h | h
        · simp [start_relay, try_join2, client_to_target, target_to_client, h]
        · simp [start_relay, try_join2, client_to_target, target_to_client,
            Nat.not_le.mpr h]
  · intro ea nb ha hb hs
    cases ha; cases hb
    simp [start_relay, try_join2, client_to_target, target_to_client,
      Nat.not_lt.mpr (Nat.le_of_lt hs)]
  · intro eb na ha hb hs
    cases ha; cases hb
    simp [start_relay, try_join2, client_to_target, target_to_client,
      Nat.not_le.mpr hs]

/-- Witness for C3's amended statement: a failing first loop with the second
loop three polls from completion leaves the second loop unfinished. -/
theorem c3_first_error_returned_immediately_witness :
    (start_relay ⟨1, .error "broken pipe"⟩ ⟨4, .ok 7⟩).2.2 = false :=
  (c3_first_error_returned_immediately ⟨1, .error "broken pipe"⟩ ⟨4, .ok 7⟩).2.1
    "broken pipe" 7 rfl rfl (by decide)

/-! ## C2: malformed domain text and the missing failure reply -/

/-- C2 counterexample: a full session whose request carries ATYP 0x03 with
the single domain byte 0xFF (not valid UTF-8).  `handle_client` ends with
`AddressError`, but the only bytes ever written to the client are the two
handshake bytes `[5, 0]`: no generic failure reply (nor any other reply) is
sent before the session closes, refuting the claim that the caller still
sends one. -/
theorem c2_counterexample_no_failure_reply :
    handle_client ⟨[5, 1, 0, 5, 1, 0, 3, 1, 255, 0, 80], []⟩ (.ok ()) ⟨0, .ok 0⟩ ⟨0, .ok 0⟩ =
      (.error (.AddressError "Invalid domain name: invalid UTF-8"), ⟨[0, 80], [5, 0]⟩) := by
  rfl

/-- C2 amended: for every CONNECT request with ATYP 0x03 whose domain bytes
are not valid text, `process_command` returns `AddressError` having sent no
reply, and `handle_client` merely propagates the error: the session closes
without any failure reply being written (the exactly-one-matching-reply
invariant does not hold on this path). -/
theorem c2_bad_domain_closes_without_reply (d rest w : List Nat)
    (connect_result : Except IoErrorKind Unit) (c2t t2c : CopyLoop)
    (_hlen : d.length ≤ 255) (hbad : utf8Valid d = false) :
    process_command ⟨5 :: 1 :: 0 :: 3 :: d.length :: (d ++ rest), w⟩ =
      (.error (.AddressError "Invalid domain name: invalid UTF-8"), ⟨rest, w⟩) ∧
    handle_client ⟨5 :: 1 :: 0 :: 5 :: 1 :: 0 :: 3 :: d.length :: (d ++ rest), w⟩
        connect_result c2t t2c =
      (.error (.AddressError "Invalid domain name: invalid UTF-8"),
        ⟨rest, w ++ [5, 0]⟩) := by
  have hpc : ∀ w' : List Nat,
      process_command ⟨5 :: 1 :: 0 :: 3 :: d.length :: (d ++ rest), w'⟩ =
        (.error (.AddressError "Invalid domain name: invalid UTF-8"), ⟨rest, w'⟩) := by
    intro w'
    simp [process_command, read_exact, readBytesAux, readBytesAux_append, hbad,
      SOCKS_VERSION, cmd.CONNECT, atyp.IPV4, atyp.DOMAIN]
  have hh : handshake ⟨5 :: 1 :: 0 :: 5 :: 1 :: 0 :: 3 :: d.length :: (d ++ rest), w⟩ =
      (.ok (), ⟨5 :: 1 :: 0 :: 3 :: d.length :: (d ++ rest), w ++ [5, 0]⟩) := by
    simp [handshake, read_exact, readBytesAux, write_all, SOCKS_VERSION,
      auth.NO_AUTH]
  exact ⟨hpc w, by simp [handle_client, hh, hpc]⟩

/-- Witness for C2's amended statement at the one-byte domain `[0xFF]`. -/
theorem c2_bad_domain_closes_without_reply_witness :
    process_command ⟨5 :: 1 :: 0 :: 3 :: [255].length :: ([255] ++ [0, 80]), []⟩ =
      (.error (.AddressError "Invalid domain name: invalid UTF-8"), ⟨[0, 80], []⟩) ∧
    handle_client ⟨5 :: 1 :: 0 :: 5 :: 1 :: 0 :: 3 :: [255].length :: ([255] ++ [0, 80]), []⟩
        (.ok ()) ⟨0, .ok 0⟩ ⟨0, .ok 0⟩ =
      (.error (.AddressError "Invalid domain name: invalid UTF-8"),
        ⟨[0, 80], [] ++ [5, 0]⟩) :=
  c2_bad_domain_closes_without_reply [255] [0, 80] [] (.ok ()) ⟨0, .ok 0⟩ ⟨0, .ok 0⟩
    (by decide) (by decide)

end RSocks5
